import Mathlib

/-!
Verification of the youtrack_time_importer repository.

The Python sources are shallowly embedded as executable Lean functions:
  * a row's raw CSV data (a dict) becomes an association list of strings;
  * Python `None` becomes `Option.none`; a raised exception becomes the
    outer `none` of a nested `Option`;
  * Python `int`/`str` values stored in a WorkItem field become `PyVal`;
  * the tracker (YouTrack connection) is a parameter supplying responses.
-/

/-- Numeric value of a decimal digit character. -/
def digitVal (c : Char) : Nat :=
  c.toNat - '0'.toNat

/-- Natural number denoted by a list of decimal digits. -/
def digitsToNat (l : List Char) : Nat :=
  l.foldl (fun a c => a * 10 + digitVal c) 0

/-- Model of Python `int()` on decimal string literals: an optional leading
minus followed by one or more digits; any other string raises ValueError,
modelled as `none`. -/
def pyIntL : List Char → Option Int
  | '-' :: rest =>
    if rest ≠ [] ∧ rest.all Char.isDigit then some (-(digitsToNat rest : Int)) else none
  | l =>
    if l ≠ [] ∧ l.all Char.isDigit then some ((digitsToNat l : Int)) else none

/-- Python `int()` applied to a string. -/
def pyInt (s : String) : Option Int :=
  pyIntL s.data

/-- Python `str.split(sep)` for a one-character separator: split at every
occurrence, keeping empty pieces.  `acc` collects the current piece in
reverse. -/
def pySplitAux (sep : Char) : List Char → List Char → List (List Char)
  | [], acc => [acc.reverse]
  | c :: t, acc =>
    if c = sep then acc.reverse :: pySplitAux sep t [] else pySplitAux sep t (c :: acc)

/-- Python `str.split(sep)` on strings, one-character separator. -/
def pySplit (s : String) (sep : Char) : List String :=
  (pySplitAux sep s.data []).map String.mk

/-- Row.get_field: dict lookup that returns None when the key is absent. -/
def get_field (data : List (String × String)) (key : String) : Option String :=
  data.lookup key

/-- Row.get_tags (ManicTimeRow): the `Name` field. -/
def get_tags (data : List (String × String)) : Option String :=
  get_field data "Name"

/-- Row.get_duration: the `Duration` field. -/
def get_duration (data : List (String × String)) : Option String :=
  get_field data "Duration"

/-- Row.get_start: the `Start` field. -/
def get_start (data : List (String × String)) : Option String :=
  get_field data "Start"

/-- Row.get_description: the `Notes` field. -/
def get_description (data : List (String × String)) : Option String :=
  get_field data "Notes"

/-- Row.get_duration_split: `duration.split(':')` when the duration field is
truthy (present and nonempty), otherwise Python None. -/
def get_duration_split (data : List (String × String)) : Option (List String) :=
  match get_duration data with
  | none => none
  | some d => if d = "" then none else some (pySplit d ':')

/-- Row.get_duration_as_minutes: `int(d[0])*60 + int(d[1])`, plus one when
`int(d[2]) >= 30`.  Outer `none` models a raised ValueError/IndexError,
inner `none` models the Python None returned when there is no duration. -/
def get_duration_as_minutes (data : List (String × String)) : Option (Option Int) :=
  match get_duration_split data with
  | none => some none
  | some (s0 :: s1 :: s2 :: _) =>
    match pyInt s0, pyInt s1, pyInt s2 with
    | some d0, some d1, some d2 =>
      some (some (d0 * 60 + d1 + (if 30 ≤ d2 then 1 else 0)))
    | _, _, _ => none
  | some _ => none

/-- Row.get_duration_as_string, mirroring the in-place list mutation of the
Python code: when seconds round up, `d[1]` is replaced by `str(int(d[1])+1)`
and re-parsed; on minute overflow `d[0]` is replaced by `str(int(d[0])+1)`
and the minute part of the rendered string is dropped. -/
def get_duration_as_string (data : List (String × String)) : Option (Option String) :=
  match get_duration_split data with
  | none => some none
  | some (s0 :: s1 :: s2 :: _) =>
      match pyInt s2 with
      | none => none
      | some d2 =>
        match (if 30 ≤ d2 then (pyInt s1).map (fun d1 => toString (d1 + 1)) else some s1) with
        | none => none
        | some s1b =>
          match pyInt s1b with
          | none => none
          | some d1 =>
            if 0 < d1 then
              if 59 < d1 then
                match pyInt s0 with
                | none => none
                | some d0 =>
                  match pyInt (toString (d0 + 1)) with
                  | none => none
                  | some d0b =>
                    some (some (if 0 < d0b then toString (d0 + 1) ++ "h" ++ "" else ""))
              else
                match pyInt s0 with
                | none => none
                | some d0 =>
                  some (some (if 0 < d0 then s0 ++ "h" ++ (s1b ++ "m") else s1b ++ "m"))
            else
              match pyInt s0 with
              | none => none
              | some d0 =>
                some (some (if 0 < d0 then s0 ++ "h" ++ "" else ""))
  | some _ => none

/-- Does the character list `l` start with `n`? -/
def startsWithL : List Char → List Char → Bool
  | [], _ => true
  | _ :: _, [] => false
  | n :: ns, h :: hs => n == h && startsWithL ns hs

/-- Does `needle` occur as a contiguous substring of the character list? -/
def hasSubstrL (needle : List Char) : List Char → Bool
  | [] => needle.isEmpty
  | h :: t => startsWithL needle (h :: t) || hasSubstrL needle t

/-- Specification-side substring predicate: `needle` occurs contiguously. -/
def occursIn (needle hay : List Char) : Prop :=
  ∃ pre suf, hay = pre ++ needle ++ suf

/-- Row.is_ignored: `re.search("ignore", tags, re.IGNORECASE)` succeeded.
Case insensitivity is modelled by lowercasing pattern and text. -/
def row_is_ignored (tags : String) : Bool :=
  hasSubstrL ("ignore".data.map Char.toLower) (tags.data.map Char.toLower)

/-- TogglAPIRow.is_ignored: the Python expression `"ignore" in tags`, a
case-sensitive substring test on the row's tags text. -/
def togglAPI_is_ignored (tags : String) : Bool :=
  hasSubstrL "ignore".data tags.data

/-- The regex character class `[a-zA-Z0-9]` (ASCII letters and digits). -/
def isAlnumChar (c : Char) : Bool :=
  c.isAlpha || c.isDigit

/-- Longest run of characters satisfying `p` at the front of the list. -/
def takeRun (p : Char → Bool) : List Char → List Char
  | [] => []
  | c :: t => if p c then c :: takeRun p t else []

/-- What remains after removing the longest front run satisfying `p`. -/
def dropRun (p : Char → Bool) : List Char → List Char
  | [] => []
  | c :: t => if p c then dropRun p t else c :: t

/-- Attempt of the pattern `[a-zA-Z0-9]*-[0-9]+` anchored at the head of the
list.  The alphanumeric star is greedy; a shorter run would be followed by
another alphanumeric character rather than the required hyphen, so only the
maximal run can succeed, and the digit plus takes the maximal digit run. -/
def matchIssueAt (l : List Char) : Option (List Char) :=
  match dropRun isAlnumChar l with
  | [] => none
  | c :: rest =>
    if c = '-' then
      if takeRun Char.isDigit rest = [] then none
      else some (takeRun isAlnumChar l ++ '-' :: takeRun Char.isDigit rest)
    else none

/-- re.search for the issue pattern: try each start position left to right
and return the first (leftmost) successful match. -/
def searchIssue : List Char → Option (List Char)
  | [] => none
  | c :: t =>
    match matchIssueAt (c :: t) with
    | some m => some m
    | none => searchIssue t

/-- Specification-side reading of the regex `[a-zA-Z0-9]*-[0-9]+` as a full
match: an alphanumeric run, a hyphen, then a nonempty digit run. -/
def issuePattern (m : List Char) : Prop :=
  ∃ a d, m = a ++ '-' :: d ∧ (∀ c ∈ a, isAlnumChar c) ∧ d ≠ [] ∧ (∀ c ∈ d, c.isDigit)

/-- Some substring of `l` is a full match of the issue pattern. -/
def hasIssueMatch (l : List Char) : Prop :=
  ∃ pre m suf, l = pre ++ m ++ suf ∧ issuePattern m

/-- Row.get_issue_id_from_tags: None on a falsy issue string, otherwise the
result of re.search for the issue pattern. -/
def get_issue_id_from_tags (issue_string : Option String) : Option String :=
  match issue_string with
  | none => none
  | some s => if s = "" then none else (searchIssue s.data).map String.mk

/-- TogglAPIRow.find_issue_id: searches the description with issue_finder;
the Python `False` returned on no match is modelled as `none`. -/
def find_issue_id (description : String) : Option String :=
  (searchIssue description.data).map String.mk

/-- TogglAPIRow.find_project_id: `issue_id.split("-")[0]`, the text before
the first hyphen of the issue id; `False` (here `none`) when no issue id. -/
def find_project_id (description : String) : Option String :=
  (find_issue_id description).map (fun i => String.mk (i.data.takeWhile (fun c => c != '-')))

/-- The `splits[0]` computation of Row.get_project_id_from_tags:
first component of `issue_id.split('-')`. -/
def project_id_of_issue_id (issue_id : String) : String :=
  (pySplit issue_id '-').headD ""

/-- Python datetime.datetime value (what this program needs of it). -/
structure PyDateTime where
  year : Int
  month : Nat
  day : Nat
  hour : Nat
  minute : Nat
  second : Nat
deriving DecidableEq

/-- datetime._is_leap. -/
def isLeap (y : Int) : Bool :=
  y % 4 == 0 && (y % 100 != 0 || y % 400 == 0)

/-- datetime._days_before_year: days before January 1st of `y`. -/
def daysBeforeYear (y : Int) : Int :=
  (y - 1) * 365 + (y - 1) / 4 - (y - 1) / 100 + (y - 1) / 400

/-- datetime._days_in_month. -/
def daysInMonth (y : Int) (m : Nat) : Int :=
  if m = 2 then (if isLeap y then 29 else 28)
  else if m = 4 ∨ m = 6 ∨ m = 9 ∨ m = 11 then 30 else 31

/-- datetime._days_before_month: days of `y` preceding month `m`. -/
def daysBeforeMonth (y : Int) (m : Nat) : Int :=
  (((List.range m).drop 1).map (fun k => daysInMonth y k)).foldl (fun a b => a + b) 0

/-- datetime.date.toordinal: proleptic Gregorian ordinal of the date. -/
def toordinal (dt : PyDateTime) : Int :=
  daysBeforeYear dt.year + daysBeforeMonth dt.year dt.month + (dt.day : Int)

/-- `int((dt - datetime.utcfromtimestamp(0)).total_seconds())`: the ordinal
of 1970-01-01 is 719163, and the difference is exact integer seconds. -/
def datetimeToUnix (dt : PyDateTime) : Int :=
  (toordinal dt - 719163) * 86400 + (dt.hour : Int) * 3600 + (dt.minute : Int) * 60 + (dt.second : Int)

/-- One-or-two digit field of CPython's _strptime regexes (%d, %m, %H, %M,
%S): the two-digit alternative is tried first, then one digit, each checked
against the directive's admissible range. -/
def parse2 (lo hi : Nat) : List Char → Option (Nat × List Char)
  | c1 :: c2 :: rest =>
    if c1.isDigit ∧ c2.isDigit ∧ lo ≤ digitVal c1 * 10 + digitVal c2 ∧ digitVal c1 * 10 + digitVal c2 ≤ hi
    then some (digitVal c1 * 10 + digitVal c2, rest)
    else if c1.isDigit ∧ lo ≤ digitVal c1 ∧ digitVal c1 ≤ hi then some (digitVal c1, c2 :: rest)
    else none
  | [c1] =>
    if c1.isDigit ∧ lo ≤ digitVal c1 ∧ digitVal c1 ≤ hi then some (digitVal c1, [])
    else none
  | [] => none

/-- Exactly four digits, the %Y field of CPython's _strptime. -/
def parse4 : List Char → Option (Nat × List Char)
  | c1 :: c2 :: c3 :: c4 :: rest =>
    if c1.isDigit ∧ c2.isDigit ∧ c3.isDigit ∧ c4.isDigit
    then some (((digitVal c1 * 10 + digitVal c2) * 10 + digitVal c3) * 10 + digitVal c4, rest)
    else none
  | _ => none

/-- Accumulator of parsed datetime fields, started from _strptime's
defaults 1900-01-01 00:00:00. -/
structure DTAcc where
  y : Nat
  m : Nat
  d : Nat
  hh : Nat
  mi : Nat
  ss : Nat
deriving DecidableEq

/-- Interpreter for the strptime format strings used by this program
(only the directives %d %m %Y %H %M %S plus literal characters occur);
whitespace in the format matches one or more whitespace characters, per
CPython _strptime, and leftover input is an error. -/
def strptimeAux : List Char → List Char → DTAcc → Option DTAcc
  | [], input, acc => if input.isEmpty then some acc else none
  | '%' :: c :: fmtRest, input, acc =>
    if c == 'd' then (parse2 1 31 input).bind (fun p => strptimeAux fmtRest p.2 { acc with d := p.1 })
    else if c == 'm' then (parse2 1 12 input).bind (fun p => strptimeAux fmtRest p.2 { acc with m := p.1 })
    else if c == 'Y' then (parse4 input).bind (fun p => strptimeAux fmtRest p.2 { acc with y := p.1 })
    else if c == 'H' then (parse2 0 23 input).bind (fun p => strptimeAux fmtRest p.2 { acc with hh := p.1 })
    else if c == 'M' then (parse2 0 59 input).bind (fun p => strptimeAux fmtRest p.2 { acc with mi := p.1 })
    else if c == 'S' then (parse2 0 61 input).bind (fun p => strptimeAux fmtRest p.2 { acc with ss := p.1 })
    else none
  | c :: fmtRest, input, acc =>
    if c.isWhitespace then
      match input with
      | [] => none
      | i :: irest =>
        if i.isWhitespace then strptimeAux fmtRest (List.dropWhile Char.isWhitespace irest) acc
        else none
    else
      match input with
      | [] => none
      | i :: irest => if i == c then strptimeAux fmtRest irest acc else none

/-- datetime.datetime.strptime: parse with the format, then apply the
datetime constructor's range checks (rejecting e.g. day 31 of a 30-day
month, second 60, or year 0 with a ValueError). -/
def strptime (s fmt : String) : Option PyDateTime :=
  match strptimeAux fmt.data s.data ⟨1900, 1, 1, 0, 0, 0⟩ with
  | none => none
  | some a =>
    if 1 ≤ a.y ∧ a.y ≤ 9999 ∧ 1 ≤ a.m ∧ a.m ≤ 12 ∧ 1 ≤ a.d ∧ (a.d : Int) ≤ daysInMonth (a.y : Int) a.m ∧ a.ss ≤ 59
    then some ⟨(a.y : Int), a.m, a.d, a.hh, a.mi, a.ss⟩
    else none

/-- The class attribute Row.datetime_format and ManicTimeRow.datetime_format. -/
def manicTimeFormat : String := "%d/%m/%Y %H:%M:%S"

/-- Row.get_date_object: parse the Start field when truthy; a strptime
failure raises (outer `none`), a falsy field yields Python None. -/
def get_date_object (fmt : String) (data : List (String × String)) : Option (Option PyDateTime) :=
  match get_start data with
  | none => some none
  | some s =>
    if s = "" then some none
    else
      match strptime s fmt with
      | none => none
      | some dt => some (some dt)

/-- Row.get_date_as_unix_time: seconds between the parsed start and the
Unix epoch, or None when there is no date. -/
def get_date_as_unix_time (fmt : String) (data : List (String × String)) : Option (Option Int) :=
  (get_date_object fmt data).map (fun o => o.map datetimeToUnix)

/-- Row.get_date_as_unix_time_milliseconds: `epoch * 1000` when the epoch
value is truthy; the Python `if epoch:` also sends the integer 0 to None. -/
def get_date_as_unix_time_milliseconds (fmt : String) (data : List (String × String)) : Option (Option Int) :=
  (get_date_as_unix_time fmt data).map (fun o =>
    match o with
    | none => none
    | some e => if e ≠ 0 then some (e * 1000) else none)

/-- A Python value stored in a WorkItem attribute: None, an int or a str. -/
inductive PyVal where
  | noneV : PyVal
  | intV : Int → PyVal
  | strV : String → PyVal
deriving DecidableEq

/-- youtrack.WorkItem as built by this program: three attributes. -/
structure WorkItem where
  description : PyVal
  date : PyVal
  duration : PyVal
deriving DecidableEq

/-- Row.create_timeslip: a fresh WorkItem whose description, date and
duration are the row's computed values, assigned exactly as computed
(no string conversion); outer `none` models a raised exception. -/
def create_timeslip (fmt : String) (data : List (String × String)) : Option WorkItem :=
  match get_date_as_unix_time_milliseconds fmt data with
  | none => none
  | some dateO =>
    match get_duration_as_minutes data with
    | none => none
    | some durO =>
      some {
        description := match get_description data with
          | none => PyVal.noneV
          | some s => PyVal.strV s,
        date := match dateO with
          | none => PyVal.noneV
          | some n => PyVal.intV n,
        duration := match durO with
          | none => PyVal.noneV
          | some n => PyVal.intV n }

/-- Python `str()` of an int-or-None value: `str(None)` is "None". -/
def pyStrOptInt : Option Int → String
  | none => "None"
  | some n => toString n

/-- A work item as returned by connection.getWorkItems: duration and date
come back as strings, the description may be absent. -/
structure ServerWorkItem where
  duration : String
  date : String
  description : Option String
deriving DecidableEq

/-- The comparison of one server item inside Row.timeslip_exists, with the
Python short-circuit order: duration first, then date, then description;
a computation failure while a comparison is still needed raises. -/
def timeslip_matches (fmt : String) (data : List (String × String)) (t : ServerWorkItem) : Option Bool :=
  match get_duration_as_minutes data with
  | none => none
  | some durO =>
    if t.duration ≠ pyStrOptInt durO then some false
    else
      match get_date_as_unix_time_milliseconds fmt data with
      | none => none
      | some dateO =>
        if t.date ≠ pyStrOptInt dateO then some false
        else some (t.description == get_description data)

/-- The `for timeslip in timeslips` loop of Row.timeslip_exists. -/
def timeslip_exists_loop (fmt : String) (data : List (String × String)) : List ServerWorkItem → Option Bool
  | [] => some false
  | t :: rest =>
    match timeslip_matches fmt data t with
    | none => none
    | some true => some true
    | some false => timeslip_exists_loop fmt data rest

/-- Row.timeslip_exists, with the tracker's getWorkItems reply passed in:
`none` is a falsy (None) reply, which skips the loop and returns False. -/
def timeslip_exists (fmt : String) (data : List (String × String))
    (timeslips : Option (List ServerWorkItem)) : Option Bool :=
  match timeslips with
  | none => some false
  | some l => timeslip_exists_loop fmt data l

/-- Python round(): round half to even (banker's rounding) on an exact
rational value. -/
def pyRound (q : ℚ) : Int :=
  if q - q.floor < 1 / 2 then q.floor
  else if 1 / 2 < q - q.floor then q.floor + 1
  else if q.floor % 2 = 0 then q.floor else q.floor + 1

/-- TogglAPIRow.work_item: description as-is, duration and date converted
with str().  The millisecond duration field `dur` and the local-timezone
dependent `start_datetime().timestamp()` value are inputs. -/
def togglAPI_work_item (description : Option String) (dur : Int) (tsSeconds : ℚ) : WorkItem :=
  { description := match description with
      | none => PyVal.noneV
      | some s => PyVal.strV s,
    date := PyVal.strV (toString (pyRound (tsSeconds * 1000))),
    duration := PyVal.strV (toString (pyRound ((dur : ℚ) / 1000 / 60))) }

/-- Python truthiness of a string-or-None value. -/
def truthyStr : Option String → Bool
  | none => false
  | some s => s ≠ ""

/-- Outcome of the driver's per-row state machine. -/
inductive RowOutcome where
  | ignoredO : RowOutcome
  | duplicateO : RowOutcome
  | uploadedO : RowOutcome
deriving DecidableEq

/-- The `while True` resolution loop of the driver: breaks ignoring on an
empty response, breaks resolving when the row's issue id is truthy, and
otherwise prompts again; `none` marks responses running out (the loop in
the source would keep prompting forever, since the typed id is unused). -/
def resolve_loop (issue_id : Option String) : List String → Option Bool
  | [] => none
  | r :: rest =>
    if r = "" then some true
    else if truthyStr issue_id then some false
    else resolve_loop issue_id rest

/-- One iteration of the driver loop in `__main__` over a row.  The
tracker-derived facts (the row's issue id, whether it exists on the
tracker, whether an equal timeslip exists) and the interactive responses
are inputs; the Bool of the result records whether connection.createWorkItem
was reached (inside row.save, which calls it when the issue id is truthy).
Outer `none` models an exception (tags of None) or exhausted responses. -/
def process_row (tags : Option String) (issue_id : Option String) (issue_on_tracker : Bool)
    (slip_exists : Bool) (responses : List String) : Option (RowOutcome × Bool) :=
  match tags with
  | none => none
  | some t =>
    if row_is_ignored t then some (RowOutcome.ignoredO, false)
    else
      if !truthyStr issue_id || (truthyStr issue_id && !issue_on_tracker) then
        match responses with
        | [] => none
        | r1 :: rest1 =>
          if r1.trim = "n" then some (RowOutcome.ignoredO, false)
          else
            match rest1 with
            | [] => none
            | r2 :: rest2 =>
              match resolve_loop issue_id (r2 :: rest2) with
              | none => none
              | some true => some (RowOutcome.ignoredO, false)
              | some false =>
                if slip_exists then some (RowOutcome.duplicateO, false)
                else some (RowOutcome.uploadedO, truthyStr issue_id)
      else
        if slip_exists then some (RowOutcome.duplicateO, false)
        else some (RowOutcome.uploadedO, truthyStr issue_id)

/-- The cached `_issue` / `_project` attribute of a Row: Python None
(never fetched), the Python False sentinel, or a fetched object. -/
inductive IssueSlot where
  | unset : IssueSlot
  | notFoundS : IssueSlot
  | foundS : String → IssueSlot
deriving DecidableEq

/-- A tracker reply to one lookup call: a truthy object, a falsy result,
or a raised youtrack.YouTrackException. -/
inductive TrackerResp where
  | obj : String → TrackerResp
  | falsy : TrackerResp
  | exc : TrackerResp
deriving DecidableEq

/-- One evaluation of the Row.issue property body.  The state is the
cached slot plus the number of get_issue calls made so far; the tracker's
reply to the n-th call is `tracker n`.  The `isinstance` guard refetches
unless the slot holds a real Issue; exceptions are caught and stored as
the False sentinel. -/
def issue_access (tracker : Nat → TrackerResp) : IssueSlot × Nat → IssueSlot × Nat
  | (IssueSlot.foundS i, calls) => (IssueSlot.foundS i, calls)
  | (_, calls) =>
    match tracker calls with
    | TrackerResp.obj i => (IssueSlot.foundS i, calls + 1)
    | TrackerResp.falsy => (IssueSlot.notFoundS, calls + 1)
    | TrackerResp.exc => (IssueSlot.notFoundS, calls + 1)

/-- One evaluation of the Row.project property body: as issue_access, but
getProject exceptions are not caught and propagate (outer `none`). -/
def project_access (tracker : Nat → TrackerResp) : IssueSlot × Nat → Option (IssueSlot × Nat)
  | (IssueSlot.foundS p, calls) => some (IssueSlot.foundS p, calls)
  | (_, calls) =>
    match tracker calls with
    | TrackerResp.obj p => some (IssueSlot.foundS p, calls + 1)
    | TrackerResp.falsy => some (IssueSlot.notFoundS, calls + 1)
    | TrackerResp.exc => none

/-- A tracker whose every get_issue call raises YouTrackException. -/
def trackerAlwaysExc : Nat → TrackerResp := fun _ => TrackerResp.exc

/-- The Unix epoch instant 1970-01-01 00:00:00. -/
def epochDT : PyDateTime := ⟨1970, 1, 1, 0, 0, 0⟩

/-- startsWithL decides prefix decomposition. -/
theorem startsWithL_iff (n : List Char) : ∀ l, startsWithL n l = true ↔ ∃ suf, l = n ++ suf := by
  induction n with
  | nil =>
    intro l
    simp [startsWithL]
  | cons c cs ih =>
    intro l
    cases l with
    | nil => simp [startsWithL]
    | cons h t =>
      simp only [startsWithL, Bool.and_eq_true, beq_iff_eq, ih t, List.cons_append]
      constructor
      · rintro ⟨rfl, suf, rfl⟩
        exact ⟨suf, rfl⟩
      · rintro ⟨suf, h1⟩
        injection h1 with h2 h3
        exact ⟨h2.symm, suf, h3⟩

/-- hasSubstrL decides the substring predicate. -/
theorem hasSubstrL_iff (n : List Char) : ∀ l, hasSubstrL n l = true ↔ occursIn n l := by
  intro l
  induction l with
  | nil =>
    simp only [hasSubstrL, List.isEmpty_iff, occursIn]
    constructor
    · rintro rfl
      exact ⟨[], [], rfl⟩
    · rintro ⟨pre, suf, hps⟩
      rcases List.append_eq_nil.mp hps.symm with ⟨h1, _⟩
      exact (List.append_eq_nil.mp h1).2
  | cons h t ih =>
    simp only [hasSubstrL, Bool.or_eq_true, ih, startsWithL_iff, occursIn]
    constructor
    · rintro (⟨suf, hsuf⟩ | ⟨pre, suf, hps⟩)
      · exact ⟨[], suf, by simpa using hsuf⟩
      · exact ⟨h :: pre, suf, by simp [hps]⟩
    · rintro ⟨pre, suf, hps⟩
      cases pre with
      | nil => exact Or.inl ⟨suf, by simpa using hps⟩
      | cons p ps =>
        rw [List.cons_append, List.cons_append] at hps
        injection hps with h1 h2
        exact Or.inr ⟨ps, suf, h2⟩

/-- Claim C2 is false on the code: for the duration string "1:45:10" the
computed minutes are 105, not 106 (10 seconds do not round up). -/
theorem C2_counterexample :
    get_duration_as_minutes [("Duration", "1:45:10")] = some (some 105) ∧
    ¬ get_duration_as_minutes [("Duration", "1:45:10")] = some (some 106) :=
  ⟨by decide, by decide⟩

/-- Claim C2 amended: a row whose raw duration field is "1:45:10" has
computed minutes 105 and duration string "1h45m". -/
theorem C2_amended :
    get_duration_as_minutes [("Duration", "1:45:10")] = some (some 105) ∧
    get_duration_as_string [("Duration", "1:45:10")] = some (some "1h45m") :=
  ⟨by decide, by decide⟩

/-- Claim C3: for every duration field of the form H:M:S with three
nonnegative integer components, the computed minutes are H*60+M when
S < 30, and H*60+M+1 when S >= 30. -/
theorem C3_duration_minutes (data : List (String × String)) (ds hstr mstr sstr : String)
    (h m s : Int)
    (hdur : get_duration data = some ds) (hne : ds ≠ "")
    (hsplit : pySplit ds ':' = [hstr, mstr, sstr])
    (hhp : pyInt hstr = some h) (hmp : pyInt mstr = some m) (hsp : pyInt sstr = some s)
    (hh0 : 0 ≤ h) (hm0 : 0 ≤ m) (hs0 : 0 ≤ s) :
    (s < 30 → get_duration_as_minutes data = some (some (h * 60 + m))) ∧
    (30 ≤ s → get_duration_as_minutes data = some (some (h * 60 + m + 1))) := by
  have hsplit2 : get_duration_split data = some [hstr, mstr, sstr] := by
    simp only [get_duration_split, hdur, if_neg hne, hsplit]
  have hmain : get_duration_as_minutes data
      = some (some (h * 60 + m + (if 30 ≤ s then 1 else 0))) := by
    simp only [get_duration_as_minutes, hsplit2, hhp, hmp, hsp]
  constructor
  · intro hlt
    rw [hmain, if_neg (by omega)]
    simp
  · intro hge
    rw [hmain, if_pos hge]

/-- Witness for C3 at the concrete duration string "2:07:45". -/
theorem C3_duration_minutes_witness :
    get_duration_as_minutes [("Duration", "2:07:45")] = some (some 128) :=
  (C3_duration_minutes [("Duration", "2:07:45")] "2:07:45" "2" "07" "45" 2 7 45
    rfl (by decide) (by decide) (by decide) (by decide) (by decide)
    (by decide) (by decide) (by decide)).2 (by decide)

/-- Claim C4 is false on the code: the TogglAPIRow variant misses the tags
text "Ignore", which contains "ignore" case-insensitively (as the base Row
variant, which is case-insensitive, confirms). -/
theorem C4_counterexample :
    togglAPI_is_ignored "Ignore" = false ∧ row_is_ignored "Ignore" = true :=
  ⟨by decide, by decide⟩

/-- Claim C4 amended: the base Row.is_ignored is true iff the tags text
contains "ignore" case-insensitively, while TogglAPIRow.is_ignored is
case-sensitive, true iff the exact lowercase "ignore" occurs. -/
theorem C4_amended (tags : String) :
    (row_is_ignored tags = true ↔ occursIn "ignore".data (tags.data.map Char.toLower)) ∧
    (togglAPI_is_ignored tags = true ↔ occursIn "ignore".data tags.data) := by
  constructor
  · have hlow : ("ignore".data.map Char.toLower) = "ignore".data := by decide
    unfold row_is_ignored
    rw [hlow, hasSubstrL_iff]
  · unfold togglAPI_is_ignored
    rw [hasSubstrL_iff]

/-- Claim C10: the issue pattern accepts an empty project code; on the
text "-123" the extracted issue id is "-123", beginning with a hyphen,
and the derived project id is the empty string. -/
theorem C10_empty_project_code :
    get_issue_id_from_tags (some "-123") = some "-123" ∧
    find_issue_id "-123" = some "-123" ∧
    find_project_id "-123" = some "" ∧
    project_id_of_issue_id "-123" = "" :=
  ⟨by decide, by decide, by decide, by decide⟩

/-- Claim C1 is false on the code: after a lookup has been recorded as
not found (here because the tracker raised and the False sentinel was
cached), the next access of the issue property calls the tracker again
instead of returning the cached result: the call count rises from 1 to 2. -/
theorem C1_counterexample :
    issue_access trackerAlwaysExc (issue_access trackerAlwaysExc (IssueSlot.unset, 0))
      = (IssueSlot.notFoundS, 2) ∧
    (issue_access trackerAlwaysExc (IssueSlot.notFoundS, 1)).2 ≠ 1 :=
  ⟨rfl, by decide⟩

/-- Claim C1 amended: once the issue (resp. project) lookup has returned a
real object, every later access returns it unchanged with no tracker call;
but a lookup recorded as not found (the False sentinel, including after a
caught exception) is re-attempted on every subsequent access. -/
theorem C1_amended (tracker : Nat → TrackerResp) (i : String) (n : Nat) :
    issue_access tracker (IssueSlot.foundS i, n) = (IssueSlot.foundS i, n) ∧
    (issue_access tracker (IssueSlot.notFoundS, n)).2 = n + 1 ∧
    project_access tracker (IssueSlot.foundS i, n) = some (IssueSlot.foundS i, n) ∧
    (tracker n ≠ TrackerResp.exc →
      ∃ slot, project_access tracker (IssueSlot.notFoundS, n) = some (slot, n + 1)) := by
  refine ⟨rfl, ?_, rfl, ?_⟩
  · show (match tracker n with
      | TrackerResp.obj i => (IssueSlot.foundS i, n + 1)
      | TrackerResp.falsy => (IssueSlot.notFoundS, n + 1)
      | TrackerResp.exc => (IssueSlot.notFoundS, n + 1)).2 = n + 1
    cases tracker n <;> rfl
  · intro hexc
    show ∃ slot, (match tracker n with
      | TrackerResp.obj p => some (IssueSlot.foundS p, n + 1)
      | TrackerResp.falsy => some (IssueSlot.notFoundS, n + 1)
      | TrackerResp.exc => none) = some (slot, n + 1)
    cases htr : tracker n with
    | obj p => exact ⟨IssueSlot.foundS p, rfl⟩
    | falsy => exact ⟨IssueSlot.notFoundS, rfl⟩
    | exc => exact absurd htr hexc

/-- Witness for C1_amended with a tracker whose replies are falsy. -/
theorem C1_amended_witness :
    ∃ slot, project_access (fun _ => TrackerResp.falsy) (IssueSlot.notFoundS, 1) = some (slot, 2) :=
  (C1_amended (fun _ => TrackerResp.falsy) "X" 1).2.2.2 (by decide)

/-- Claim C8: in the driver loop, a row whose tags contain "ignore"
(case-insensitively) is marked ignored immediately, and
connection.createWorkItem is never reached for it, whatever the issue id,
its existence on the tracker, the duplicate check, or the responses. -/
theorem C8_ignored_never_uploaded (tags : String) (issue_id : Option String)
    (issue_on_tracker slip_exists : Bool) (responses : List String)
    (h : row_is_ignored tags = true) :
    process_row (some tags) issue_id issue_on_tracker slip_exists responses
      = some (RowOutcome.ignoredO, false) := by
  simp [process_row, h]

/-- Witness for C8: a row tagged "IGNORE ABC-123" with a valid existing
issue id and no duplicate on the tracker is still only ignored. -/
theorem C8_ignored_never_uploaded_witness :
    process_row (some "IGNORE ABC-123") (some "ABC-123") true false ["y", "ABC-123"]
      = some (RowOutcome.ignoredO, false) :=
  C8_ignored_never_uploaded "IGNORE ABC-123" (some "ABC-123") true false ["y", "ABC-123"] (by decide)

/-- Claim C9: a row whose start parses to exactly the Unix epoch gets unix
time 0, which the truthiness test `if epoch:` conflates with a missing
date, so the millisecond conversion returns None and the created
WorkItem's date attribute is None. -/
theorem C9_epoch_date_none (fmt : String) (data : List (String × String))
    (h : get_date_object fmt data = some (some epochDT)) :
    get_date_as_unix_time fmt data = some (some 0) ∧
    get_date_as_unix_time_milliseconds fmt data = some none ∧
    (∀ durO, get_duration_as_minutes data = some durO →
      (create_timeslip fmt data).map WorkItem.date = some PyVal.noneV) := by
  have h1 : get_date_as_unix_time fmt data = some (some 0) := by
    unfold get_date_as_unix_time
    rw [h]
    rfl
  have h2 : get_date_as_unix_time_milliseconds fmt data = some none := by
    unfold get_date_as_unix_time_milliseconds
    rw [h1]
    rfl
  refine ⟨h1, h2, ?_⟩
  intro durO hdur
  unfold create_timeslip
  rw [h2, hdur]
  cases durO <;> rfl

/-- Witness for C9: a row starting at "01/01/1970 00:00:00". -/
theorem C9_epoch_date_none_witness :
    get_date_as_unix_time_milliseconds manicTimeFormat
        [("Duration", "0:05:00"), ("Start", "01/01/1970 00:00:00"), ("Notes", "boot")]
      = some none ∧
    (create_timeslip manicTimeFormat
        [("Duration", "0:05:00"), ("Start", "01/01/1970 00:00:00"), ("Notes", "boot")]).map WorkItem.date
      = some PyVal.noneV :=
  ⟨(C9_epoch_date_none manicTimeFormat
      [("Duration", "0:05:00"), ("Start", "01/01/1970 00:00:00"), ("Notes", "boot")] (by decide)).2.1,
   (C9_epoch_date_none manicTimeFormat
      [("Duration", "0:05:00"), ("Start", "01/01/1970 00:00:00"), ("Notes", "boot")] (by decide)).2.2
      (some 5) (by decide)⟩

/-- Claim C5 is false on the code: Row.create_timeslip assigns the computed
minute count (and date) as raw ints, not string-encoded; on the end-to-end
CSV row the duration attribute is the int 30, not the string "30". -/
theorem C5_counterexample :
    (create_timeslip manicTimeFormat
        [("Name", "ABC-123 meeting"), ("Duration", "0:30:00"),
         ("Start", "01/01/2020 09:00:00"), ("Notes", "sync")]).map WorkItem.duration
      = some (PyVal.intV 30) ∧
    PyVal.intV 30 ≠ PyVal.strV "30" :=
  ⟨by decide, by decide⟩

/-- Claim C5 amended: TogglAPIRow.work_item string-encodes the computed
duration and date; Row.create_timeslip instead assigns the computed values
exactly as computed, raw ints or None; the description is stored as-is by
both. -/
theorem C5_amended (fmt : String) (data : List (String × String)) (dateO durO : Option Int)
    (hdate : get_date_as_unix_time_milliseconds fmt data = some dateO)
    (hdur : get_duration_as_minutes data = some durO)
    (description : Option String) (dur : Int) (ts : ℚ) :
    create_timeslip fmt data = some {
      description := match get_description data with
        | none => PyVal.noneV
        | some s => PyVal.strV s,
      date := match dateO with
        | none => PyVal.noneV
        | some n => PyVal.intV n,
      duration := match durO with
        | none => PyVal.noneV
        | some n => PyVal.intV n } ∧
    (togglAPI_work_item description dur ts).description
      = (match description with | none => PyVal.noneV | some s => PyVal.strV s) ∧
    (togglAPI_work_item description dur ts).duration
      = PyVal.strV (toString (pyRound ((dur : ℚ) / 1000 / 60))) ∧
    (togglAPI_work_item description dur ts).date
      = PyVal.strV (toString (pyRound (ts * 1000))) := by
  refine ⟨?_, rfl, rfl, rfl⟩
  simp only [create_timeslip, hdate, hdur]
  cases dateO <;> cases durO <;> rfl

/-- Witness for C5_amended on the end-to-end CSV row. -/
theorem C5_amended_witness :
    create_timeslip manicTimeFormat
        [("Name", "ABC-123 meeting"), ("Duration", "0:30:00"),
         ("Start", "01/01/2020 09:00:00"), ("Notes", "sync")]
      = some { description := PyVal.strV "sync", date := PyVal.intV 1577869200000,
               duration := PyVal.intV 30 } :=
  (C5_amended manicTimeFormat
    [("Name", "ABC-123 meeting"), ("Duration", "0:30:00"),
     ("Start", "01/01/2020 09:00:00"), ("Notes", "sync")]
    (some 1577869200000) (some 30) (by decide) (by decide) none 0 0).1

/-- Claim C6: when the row's computed values are available, timeslip_exists
returns true iff some item in the tracker's reply agrees with the freshly
computed duration (str-encoded), date (str-encoded) and description; only
the attribute values matter, not object identity. -/
theorem C6_duplicate_detection (fmt : String) (data : List (String × String))
    (l : List ServerWorkItem) (durO dateO : Option Int)
    (hdur : get_duration_as_minutes data = some durO)
    (hdate : get_date_as_unix_time_milliseconds fmt data = some dateO) :
    timeslip_exists fmt data (some l)
      = some (l.any (fun t => t.duration == pyStrOptInt durO
          && t.date == pyStrOptInt dateO && t.description == get_description data)) ∧
    (timeslip_exists fmt data (some l) = some true ↔
      ∃ t ∈ l, t.duration = pyStrOptInt durO ∧ t.date = pyStrOptInt dateO ∧
        t.description = get_description data) := by
  have hmatch : ∀ t : ServerWorkItem, timeslip_matches fmt data t
      = some (t.duration == pyStrOptInt durO && t.date == pyStrOptInt dateO
          && t.description == get_description data) := by
    intro t
    simp only [timeslip_matches, hdur, hdate]
    by_cases h1 : t.duration = pyStrOptInt durO
    · by_cases h2 : t.date = pyStrOptInt dateO
      · simp [h1, h2]
      · simp [h1, h2]
    · simp [h1]
  have hloop : ∀ ls : List ServerWorkItem, timeslip_exists_loop fmt data ls
      = some (ls.any (fun t => t.duration == pyStrOptInt durO
          && t.date == pyStrOptInt dateO && t.description == get_description data)) := by
    intro ls
    induction ls with
    | nil => rfl
    | cons t rest ih =>
      simp only [timeslip_exists_loop, hmatch t]
      cases hb : (t.duration == pyStrOptInt durO && t.date == pyStrOptInt dateO
          && t.description == get_description data)
      · simpa [hb] using ih
      · simp [hb]
  refine ⟨hloop l, ?_⟩
  have h1 : timeslip_exists fmt data (some l)
      = some (l.any (fun t => t.duration == pyStrOptInt durO
          && t.date == pyStrOptInt dateO && t.description == get_description data)) := hloop l
  rw [h1]
  simp only [Option.some.injEq, List.any_eq_true, Bool.and_eq_true, beq_iff_eq]
  tauto

/-- Witness for C6 on a concrete row and server reply: the second reply
item agrees with the computed values, so the duplicate is detected. -/
theorem C6_duplicate_detection_witness :
    timeslip_exists manicTimeFormat
        [("Duration", "1:00:00"), ("Start", "02/01/2020 10:00:00"), ("Notes", "work")]
        (some [⟨"61", "0", none⟩, ⟨"60", "1577959200000", some "work"⟩])
      = some true := by
  have h := (C6_duplicate_detection manicTimeFormat
    [("Duration", "1:00:00"), ("Start", "02/01/2020 10:00:00"), ("Notes", "work")]
    [⟨"61", "0", none⟩, ⟨"60", "1577959200000", some "work"⟩]
    (some 60) (some 1577959200000) (by decide) (by decide)).1
  rw [h]
  decide

/-- takeRun and dropRun reassemble the original list. -/
theorem takeRun_append_dropRun (p : Char → Bool) : ∀ l, takeRun p l ++ dropRun p l = l := by
  intro l
  induction l with
  | nil => rfl
  | cons c t ih =>
    by_cases h : p c
    · simp [takeRun, dropRun, h, ih]
    · simp [takeRun, dropRun, h]

/-- Every character of a takeRun satisfies the predicate. -/
theorem takeRun_all (p : Char → Bool) : ∀ l, ∀ c ∈ takeRun p l, p c := by
  intro l
  induction l with
  | nil => intro c hc; simp [takeRun] at hc
  | cons a t ih =>
    intro c hc
    by_cases h : p a
    · rw [takeRun, if_pos h] at hc
      rcases List.mem_cons.mp hc with rfl | hc2
      · exact h
      · exact ih c hc2
    · rw [takeRun, if_neg h] at hc
      simp at hc

/-- takeRun passes over a fully satisfying front segment. -/
theorem takeRun_append_all (p : Char → Bool) (a b : List Char)
    (h : ∀ c ∈ a, p c) : takeRun p (a ++ b) = a ++ takeRun p b := by
  induction a with
  | nil => simp
  | cons x xs ih =>
    have hx : p x := h x (List.mem_cons_self x xs)
    show (if p x then x :: takeRun p (xs ++ b) else []) = (x :: xs) ++ takeRun p b
    rw [if_pos hx, ih (fun c hc => h c (List.mem_cons_of_mem x hc))]
    rfl

/-- dropRun passes over a fully satisfying front segment. -/
theorem dropRun_append_all (p : Char → Bool) (a b : List Char)
    (h : ∀ c ∈ a, p c) : dropRun p (a ++ b) = dropRun p b := by
  induction a with
  | nil => simp
  | cons x xs ih =>
    have hx : p x := h x (List.mem_cons_self x xs)
    show (if p x then dropRun p (xs ++ b) else x :: (xs ++ b)) = dropRun p b
    rw [if_pos hx]
    exact ih (fun c hc => h c (List.mem_cons_of_mem x hc))

/-- A successful anchored match is a pattern instance and a prefix of the
input. -/
theorem matchIssueAt_sound (l m : List Char) (h : matchIssueAt l = some m) :
    issuePattern m ∧ ∃ suf, l = m ++ suf := by
  unfold matchIssueAt at h
  cases hd : dropRun isAlnumChar l with
  | nil => rw [hd] at h; exact absurd h (by simp)
  | cons c rest =>
    rw [hd] at h
    have h2 : (if c = '-' then
        if takeRun Char.isDigit rest = [] then none
        else some (takeRun isAlnumChar l ++ '-' :: takeRun Char.isDigit rest)
      else none) = some m := h
    by_cases hc : c = '-'
    · rw [if_pos hc] at h2
      by_cases hdg : takeRun Char.isDigit rest = []
      · rw [if_pos hdg] at h2; exact absurd h2 (by simp)
      · rw [if_neg hdg] at h2
        have hm : m = takeRun isAlnumChar l ++ '-' :: takeRun Char.isDigit rest :=
          (Option.some.inj h2).symm
        subst hc
        refine ⟨⟨takeRun isAlnumChar l, takeRun Char.isDigit rest, hm,
          takeRun_all _ l, hdg, takeRun_all _ rest⟩, dropRun Char.isDigit rest, ?_⟩
        calc l = takeRun isAlnumChar l ++ dropRun isAlnumChar l :=
              (takeRun_append_dropRun _ l).symm
          _ = takeRun isAlnumChar l ++ ('-' :: rest) := by rw [hd]
          _ = takeRun isAlnumChar l
              ++ ('-' :: (takeRun Char.isDigit rest ++ dropRun Char.isDigit rest)) := by
              rw [takeRun_append_dropRun]
          _ = m ++ dropRun Char.isDigit rest := by rw [hm]; simp
    · rw [if_neg hc] at h2; exact absurd h2 (by simp)

/-- A pattern instance at the head of the input makes the anchored match
succeed. -/
theorem matchIssueAt_ne_none (m suf : List Char) (hm : issuePattern m) :
    matchIssueAt (m ++ suf) ≠ none := by
  obtain ⟨a, d, rfl, ha, hd, hdig⟩ := hm
  have hhyph : isAlnumChar '-' = false := by decide
  have h1 : dropRun isAlnumChar ((a ++ '-' :: d) ++ suf) = '-' :: (d ++ suf) := by
    rw [List.append_assoc, List.cons_append, dropRun_append_all _ a _ ha]
    simp [dropRun, hhyph]
  have h3 : takeRun Char.isDigit (d ++ suf) ≠ [] := by
    rw [takeRun_append_all _ d suf hdig]
    intro hcontra
    exact hd (List.append_eq_nil.mp hcontra).1
  unfold matchIssueAt
  rw [h1]
  simp [h3]

/-- When the search fails there is no pattern instance anywhere. -/
theorem searchIssue_none : ∀ l, searchIssue l = none → ¬ hasIssueMatch l := by
  intro l
  induction l with
  | nil =>
    intro _
    rintro ⟨pre, m, suf, heq, a, d, rfl, _, hdne, _⟩
    simp at heq
  | cons c t ih =>
    intro h
    have hsplit : matchIssueAt (c :: t) = none ∧ searchIssue t = none := by
      unfold searchIssue at h
      cases hma : matchIssueAt (c :: t) with
      | some m => rw [hma] at h; exact absurd h (by simp)
      | none => rw [hma] at h; exact ⟨rfl, h⟩
    rintro ⟨pre, m, suf, heq, hm⟩
    cases pre with
    | nil =>
      simp only [List.nil_append] at heq
      have hma := hsplit.1
      rw [heq] at hma
      exact matchIssueAt_ne_none m suf hm hma
    | cons p ps =>
      rw [List.cons_append, List.cons_append] at heq
      injection heq with h1 h2
      exact ih hsplit.2 ⟨ps, m, suf, h2, hm⟩

/-- A successful search returns a pattern instance occurring at the
leftmost position at which any pattern instance occurs. -/
theorem searchIssue_some : ∀ l m, searchIssue l = some m →
    issuePattern m ∧ ∃ pre suf, l = pre ++ m ++ suf ∧
      ∀ pre2 m2 suf2, l = pre2 ++ m2 ++ suf2 → issuePattern m2 →
        pre.length ≤ pre2.length := by
  intro l
  induction l with
  | nil => intro m h; exact absurd h (by simp [searchIssue])
  | cons c t ih =>
    intro m h
    cases hma : matchIssueAt (c :: t) with
    | some m0 =>
      have hm0 : m0 = m := by
        unfold searchIssue at h
        rw [hma] at h
        exact Option.some.inj h
      subst hm0
      obtain ⟨hp, suf, hsuf⟩ := matchIssueAt_sound _ _ hma
      refine ⟨hp, [], suf, by simpa using hsuf, ?_⟩
      intro pre2 m2 suf2 _ _
      simp
    | none =>
      have ht : searchIssue t = some m := by
        unfold searchIssue at h
        rw [hma] at h
        exact h
      obtain ⟨hp, pre, suf, heq, hmin⟩ := ih m ht
      refine ⟨hp, c :: pre, suf, by simp [heq], ?_⟩
      intro pre2 m2 suf2 heq2 hm2
      cases pre2 with
      | nil =>
        simp only [List.nil_append] at heq2
        rw [heq2] at hma
        exact absurd hma (matchIssueAt_ne_none m2 suf2 hm2)
      | cons p2 ps2 =>
        rw [List.cons_append, List.cons_append] at heq2
        injection heq2 with h1 h2
        have := hmin ps2 m2 suf2 h2 hm2
        simp only [List.length_cons]
        omega

/-- Claim C7: find_issue_id returns the leftmost full match of the pattern
alnum*, hyphen, digits+ and returns none exactly when no substring of the
issue text matches; find_project_id is the text of that issue id before its
first hyphen and is none exactly when no issue id is found; the base-class
extractor agrees on nonempty issue strings. -/
theorem C7_issue_and_project_id (s : String) :
    (find_issue_id s = none ↔ ¬ hasIssueMatch s.data) ∧
    (∀ m, find_issue_id s = some m →
      issuePattern m.data ∧
      ∃ pre suf, s.data = pre ++ m.data ++ suf ∧
        ∀ pre2 m2 suf2, s.data = pre2 ++ m2 ++ suf2 → issuePattern m2 →
          pre.length ≤ pre2.length) ∧
    (find_project_id s = none ↔ find_issue_id s = none) ∧
    (∀ m, find_issue_id s = some m →
      find_project_id s = some (String.mk (m.data.takeWhile (fun c => c != '-')))) ∧
    (s ≠ "" → get_issue_id_from_tags (some s) = find_issue_id s) := by
  refine ⟨?_, ?_, ?_, ?_, ?_⟩
  · constructor
    · intro h
      unfold find_issue_id at h
      exact searchIssue_none s.data (Option.map_eq_none.mp h)
    · intro hno
      unfold find_issue_id
      cases hsi : searchIssue s.data with
      | none => rfl
      | some m0 =>
        obtain ⟨hp, pre, suf, heq, _⟩ := searchIssue_some s.data m0 hsi
        exact absurd ⟨pre, m0, suf, heq, hp⟩ hno
  · intro m hm
    unfold find_issue_id at hm
    obtain ⟨m0, hm0, hmk⟩ := Option.map_eq_some.mp hm
    have hmd : m.data = m0 := congrArg String.data hmk.symm
    rw [hmd]
    exact searchIssue_some s.data m0 hm0
  · unfold find_project_id
    exact Option.map_eq_none
  · intro m hm
    unfold find_project_id
    rw [hm]
    rfl
  · intro hne
    show (if s = "" then none else Option.map String.mk (searchIssue s.data)) = find_issue_id s
    rw [if_neg hne]
    rfl

/-- Witness for C7 on the text "Working on ABC-123 today": the extracted
issue id "ABC-123" is a full pattern match and the project id is "ABC". -/
theorem C7_issue_and_project_id_witness :
    issuePattern ("ABC-123".data) ∧
    find_project_id "Working on ABC-123 today" = some "ABC" ∧
    get_issue_id_from_tags (some "Working on ABC-123 today") = some "ABC-123" := by
  have h := C7_issue_and_project_id "Working on ABC-123 today"
  refine ⟨(h.2.1 "ABC-123" (by decide)).1, ?_, ?_⟩
  · rw [h.2.2.2.1 "ABC-123" (by decide)]
    decide
  · rw [h.2.2.2.2 (by decide)]
    decide
